import Mathlib

/-!
Verification of the expense-tracker backend (Django REST API).

Shallow embedding of the data model and the operations of the repository:
expense CRUD scoped by owner (`expenses/views.py`), the query filters
(`expenses/filters.py`), the serializer validation chain
(`expenses/serializers.py`), the statistics aggregation
(`ExpenseViewSet.stats`), the custom user manager (`users/managers.py`),
the profile serializer (`users/serializers.py`) and the token blacklist
lifecycle (`users/views.py` together with the JWT library configuration).

Monetary amounts are modelled as rationals (the code stores fixed-point
decimals with two places, a subset of the rationals on which all the
comparisons performed by the code coincide).  Dates are modelled as
integers counting days, so `timedelta(days=n)` is subtraction by `n`.
-/

/-- The seven expense categories of `Expense.CATEGORY_CHOICES`
(`expenses/models.py`), by their stored code. -/
inductive Category where
  | GROCERIES
  | LEISURE
  | ELECTRONICS
  | UTILITIES
  | CLOTHING
  | HEALTH
  | OTHERS
deriving DecidableEq, Repr

/-- The human-readable label paired with each category code in
`Expense.CATEGORY_CHOICES`. -/
def Category.label : Category → String
  | .GROCERIES => "Comestibles"
  | .LEISURE => "Entretenimiento"
  | .ELECTRONICS => "Electrónicos"
  | .UTILITIES => "Servicios Públicos"
  | .CLOTHING => "Ropa"
  | .HEALTH => "Salud"
  | .OTHERS => "Otros"

/-- `Expense.CATEGORY_CHOICES` as the ordered list of category codes
(`expenses/models.py` lines 16-24). -/
def CATEGORY_CHOICES : List Category :=
  [.GROCERIES, .LEISURE, .ELECTRONICS, .UTILITIES, .CLOTHING, .HEALTH, .OTHERS]

/-- A persisted `Expense` row (`expenses/models.py`): primary key `id`,
owning user's primary key `user`, `title`, fixed-point `amount`,
`category` code, optional `description` (nullable text), and the expense
`date` in days.  Audit timestamps are omitted: no claim mentions them. -/
structure Expense where
  id : Nat
  user : Nat
  title : String
  amount : Rat
  category : Category
  description : Option String
  date : Int
deriving DecidableEq, Repr

/-- Sum of the amounts of a list of expenses; `aggregate(Sum('amount'))`
followed by the `None → 0` replacement in `ExpenseViewSet.stats`
(`expenses/views.py` lines 87-97: an empty set aggregates to `None`,
which the view replaces by `0`). -/
def sumAmounts (es : List Expense) : Rat :=
  (es.map (fun e => e.amount)).sum

/-- The per-category breakdown built by the loop over
`Expense.CATEGORY_CHOICES` in `ExpenseViewSet.stats`
(`expenses/views.py` lines 100-109): for each choice, the human-readable
label is mapped to `Sum('amount')` over the expenses with that category
code, with `None` (empty filter) replaced by `0` via `or 0`. -/
def byCategory (es : List Expense) : List (String × Rat) :=
  CATEGORY_CHOICES.map
    (fun c => (c.label, sumAmounts (es.filter (fun e => e.category == c))))

/-- The payload assembled by `ExpenseViewSet.stats`. -/
structure Stats where
  total_expenses : Nat
  total_amount : Rat
  average_amount : Rat
  by_category : List (String × Rat)
deriving DecidableEq, Repr

/-- `ExpenseViewSet.stats` (`expenses/views.py` lines 73-117) on the
owner-scoped queryset `es`: `Count('id')`, `Sum('amount')` with
`None → 0`, `Avg('amount')` with `None → 0` (for a nonempty set the SQL
average is the sum divided by the count), and the per-category loop. -/
def computeStats (es : List Expense) : Stats :=
  { total_expenses := es.length
    total_amount := sumAmounts es
    average_amount :=
      if es.length = 0 then 0 else sumAmounts es / (es.length : Rat)
    by_category := byCategory es }

lemma sumAmounts_nil : sumAmounts [] = 0 := rfl

lemma sumAmounts_cons (e : Expense) (es : List Expense) :
    sumAmounts (e :: es) = e.amount + sumAmounts es := by
  simp [sumAmounts]

lemma sumAmounts_filter_cons (p : Expense → Bool) (e : Expense)
    (es : List Expense) :
    sumAmounts ((e :: es).filter p) =
      (if p e then e.amount else 0) + sumAmounts (es.filter p) := by
  by_cases h : p e
  · simp [List.filter_cons, h, sumAmounts_cons]
  · simp [List.filter_cons, h]

/-- Splitting a list sum of pointwise sums. -/
lemma sum_map_add_split (l : List Category) (f g : Category → Rat) :
    (l.map (fun c => f c + g c)).sum = (l.map f).sum + (l.map g).sum := by
  induction l with
  | nil => simp
  | cons c l ih => simp [ih]; ring

/-- Each expense's category code occurs exactly once among the choices, so
the indicator sums to the expense's amount. -/
lemma sum_indicator_choices (e : Expense) :
    (CATEGORY_CHOICES.map
      (fun c => if e.category == c then e.amount else 0)).sum = e.amount := by
  cases h : e.category <;>
    simp [CATEGORY_CHOICES, h]

/-- The list of per-category sums, without the labels. -/
def catSums (es : List Expense) : List Rat :=
  CATEGORY_CHOICES.map (fun c => sumAmounts (es.filter (fun e => e.category == c)))

lemma byCategory_map_snd (es : List Expense) :
    (byCategory es).map Prod.snd = catSums es := by
  simp only [byCategory, catSums, List.map_map]
  rfl

lemma catSums_sum (es : List Expense) : (catSums es).sum = sumAmounts es := by
  induction es with
  | nil => simp [catSums, CATEGORY_CHOICES, sumAmounts]
  | cons e es ih =>
      have hfun : (fun c => sumAmounts ((e :: es).filter (fun x => x.category == c))) =
          (fun c => (if e.category == c then e.amount else 0) +
            sumAmounts (es.filter (fun x => x.category == c))) :=
        funext (fun c => sumAmounts_filter_cons (fun x => x.category == c) e es)
      simp only [catSums] at ih ⊢
      rw [hfun, sum_map_add_split, sum_indicator_choices, ih, sumAmounts_cons]

/-- The by-category sums add up to the total sum. -/
lemma byCategory_values_sum (es : List Expense) :
    ((byCategory es).map Prod.snd).sum = sumAmounts es := by
  rw [byCategory_map_snd, catSums_sum]

/-! ## Owner-scoped CRUD (expenses/views.py, expenses/permissions.py) -/

/-- `ExpenseViewSet.get_queryset` (`expenses/views.py` lines 39-49):
the queryset is always restricted to the expenses whose `user` foreign
key equals the authenticated requester. -/
def get_queryset (db : List Expense) (requester : Nat) : List Expense :=
  db.filter (fun e => e.user == requester)

/-- `IsOwner.has_object_permission` (`expenses/permissions.py` lines
4-24): permission is granted iff the object belongs to the requester. -/
def has_object_permission (requester : Nat) (e : Expense) : Bool :=
  e.user == requester

/-- Outcome of a detail route (retrieve / update / partial-update /
destroy): the handler proceeds with the looked-up object, or the
request is answered 404 (object not in the scoped queryset) or 403
(object permission denied). -/
inductive DetailOutcome where
  | ok (e : Expense)
  | http404
  | http403
deriving DecidableEq, Repr

/-- The object-lookup step shared by GET / PUT / PATCH / DELETE on
`/expenses/pk/`: the framework resolves `pk` inside
`get_queryset` (404 when absent) and then checks
`IsOwner.has_object_permission` (403 when denied).  All four detail
handlers of `ExpenseViewSet` run exactly this step before acting. -/
def get_object (db : List Expense) (requester pk : Nat) : DetailOutcome :=
  match (get_queryset db requester).find? (fun e => e.id == pk) with
  | some e =>
      if has_object_permission requester e then .ok e else .http403
  | none => .http404

/-- DELETE `/expenses/pk/`: look up the object, then remove the row;
404 and 403 leave the database unchanged. -/
def destroyExpense (db : List Expense) (requester pk : Nat) :
    DetailOutcome × List Expense :=
  match get_object db requester pk with
  | .ok e => (.ok e, db.filter (fun x => !(x.id == pk && x.user == requester)))
  | o => (o, db)

lemma get_object_eq_404 (db : List Expense) (r pk : Nat)
    (h : ∀ e ∈ db, e.id = pk → e.user ≠ r) :
    get_object db r pk = .http404 := by
  have hfind : (get_queryset db r).find? (fun e => e.id == pk) = none := by
    rw [List.find?_eq_none]
    intro x hx
    rcases List.mem_filter.mp hx with ⟨hxdb, hxuser⟩
    have hxu : x.user = r := by simpa using hxuser
    intro hbeq
    have hid : x.id = pk := by simpa using hbeq
    exact h x hxdb hid hxu
  simp [get_object, hfind]

lemma get_object_ne_403 (db : List Expense) (r pk : Nat) :
    get_object db r pk ≠ .http403 := by
  unfold get_object
  cases hfind : (get_queryset db r).find? (fun e => e.id == pk) with
  | none => simp
  | some e =>
      have hmem : e ∈ get_queryset db r := List.mem_of_find?_eq_some hfind
      have huser : e.user = r := by
        have := (List.mem_filter.mp hmem).2
        simpa using this
      simp [has_object_permission, huser]

lemma get_object_ok_owner (db : List Expense) (r pk : Nat) (e : Expense)
    (h : get_object db r pk = .ok e) : e ∈ db ∧ e.user = r := by
  unfold get_object at h
  cases hfind : (get_queryset db r).find? (fun x => x.id == pk) with
  | none => rw [hfind] at h; simp at h
  | some x =>
      rw [hfind] at h
      have hmem : x ∈ get_queryset db r := List.mem_of_find?_eq_some hfind
      have hdb : x ∈ db := (List.mem_filter.mp hmem).1
      have huser : x.user = r := by
        have := (List.mem_filter.mp hmem).2
        simpa using this
      have hperm : has_object_permission r x = true := by
        simp [has_object_permission, huser]
      simp [hperm] at h
      rw [← h]
      exact ⟨hdb, huser⟩

/-! ## Query filters (expenses/filters.py) -/

/-- `ExpenseFilter.filter_by_period` (`expenses/filters.py` lines
60-90): today is taken at request time; week / month / 3months keep the
expenses dated on or after today minus 7 / 30 / 90 days; any other
value returns the queryset unfiltered. -/
def filter_by_period (today : Int) (es : List Expense) (value : String) :
    List Expense :=
  if value = "week" then es.filter (fun e => decide (today - 7 ≤ e.date))
  else if value = "month" then es.filter (fun e => decide (today - 30 ≤ e.date))
  else if value = "3months" then es.filter (fun e => decide (today - 90 ≤ e.date))
  else es

lemma filter_by_period_mem (today : Int) (es : List Expense) (e : Expense)
    (n : Int) (v : String)
    (hv : filter_by_period today es v = es.filter (fun e => decide (today - n ≤ e.date)))
    (hpast : ∀ x ∈ es, x.date ≤ today) :
    e ∈ filter_by_period today es v ↔
      e ∈ es ∧ 0 ≤ today - e.date ∧ today - e.date ≤ n := by
  rw [hv, List.mem_filter]
  constructor
  · rintro ⟨hm, hd⟩
    have hd2 : today - n ≤ e.date := by simpa using hd
    have hle := hpast e hm
    exact ⟨hm, by omega, by omega⟩
  · rintro ⟨hm, -, hd⟩
    exact ⟨hm, by simpa using (by omega : today - n ≤ e.date)⟩

/-! ## Serializer validation (expenses/serializers.py) -/

/-- Field tag of a validation error in the error payload returned by
the expense serializer. -/
inductive FieldErr where
  | onTitle
  | onAmount
  | onDate
  | onDescription
deriving DecidableEq, Repr

/-- The whitespace stripping performed by the char field before its
checks run (trim_whitespace is on by default): leading and trailing
whitespace removed. -/
def pyStrip (s : String) : String :=
  ⟨(((s.data.dropWhile Char.isWhitespace).reverse).dropWhile
      Char.isWhitespace).reverse⟩

/-- The field-level validation of `title`: the model declares it a
required char field with max_length 200 (`expenses/models.py` lines
35-39), so the serializer rejects a blank (empty after stripping)
title and one longer than 200 characters, with the error scoped to
the title field. -/
def titleFieldErr (title : String) : Option FieldErr :=
  if pyStrip title = "" then some .onTitle
  else if 200 < (pyStrip title).length then some .onTitle
  else none

/-- Truthiness of the description value as tested by
`not description` in `ExpenseSerializer.validate`: an absent value
(None) and the empty string are falsy. -/
def descrFalsy : Option String → Bool
  | none => true
  | some s => s == ""

/-- The field-level validation of `amount`, in the order the framework
runs it, every error scoped to the amount field:
the decimal field declares max_digits 10 and decimal_places 2
(`expenses/models.py` lines 43-44), so the deserializer first rejects a
value with more than 2 decimal places (as a rational: v * 100 is not an
integer) and one with more than 10 - 2 = 8 whole digits (absolute value
at least 100,000,000); then the `MinValueValidator(0.01)` attached to
the model field (`expenses/models.py` line 45) runs, and, were it
reached below that bound, the `value <= 0` check of
`ExpenseSerializer.validate_amount` (`expenses/serializers.py` lines
35-52). -/
def amountFieldErr (v : Rat) : Option FieldErr :=
  if (v * 100).den ≠ 1 then some .onAmount
  else if 100000000 ≤ |v| then some .onAmount
  else if v < 1/100 then some .onAmount
  else if v ≤ 0 then some .onAmount
  else none

/-- `ExpenseSerializer.validate_date` (`expenses/serializers.py` lines
54-71): a date strictly after today is rejected. -/
def dateFieldErr (today v : Int) : Option FieldErr :=
  if today < v then some .onDate else none

/-- `ExpenseSerializer.validate` (`expenses/serializers.py` lines
73-97), the object-level rule: it reads `attrs.get` on the submitted
data only, so both fields are optional here; the error fires when the
amount is truthy, exceeds 1,000,000 and the description is falsy, and
it is keyed to the description field. -/
def validateLargeAmount (amount : Option Rat) (descr : Option String) :
    Option FieldErr :=
  match amount with
  | none => none
  | some a =>
      if (a != 0) && decide (a > 1000000) && descrFalsy descr then
        some .onDescription
      else none

/-- Result of deserializing and validating a write request: either a
row to persist or a 400 response carrying field-scoped errors. -/
inductive ValResult where
  | ok (e : Expense)
  | invalid (errs : List FieldErr)
deriving DecidableEq, Repr

/-- The body of POST `/expenses/`.  The `user` key is representable by
the client but the serializer declares it read-only
(`expenses/serializers.py` line 33), so it never reaches the validated
data. -/
structure ExpenseCreateBody where
  user : Option Nat
  title : String
  amount : Rat
  category : Category
  description : Option String
  date : Int
deriving DecidableEq, Repr

/-- `ExpenseViewSet.perform_create` (`expenses/views.py` lines 63-71):
`serializer.save(user=self.request.user)` builds the row from the
validated data (which cannot contain `user`: the field is read-only)
and stamps the authenticated caller as owner. -/
def perform_create (caller newId : Nat) (b : ExpenseCreateBody) : Expense :=
  ⟨newId, caller, b.title, b.amount, b.category, b.description, b.date⟩

/-- The full validation run of a create request: the field-level
validators run first, in the declaration order of the serializer fields
(title, amount, date; category and description carry no checks beyond
their types); their errors are collected and, when any is present, the
object-level `validate` is not reached.  Otherwise the object-level
rule runs, then `perform_create`. -/
def run_validation_create (today : Int) (caller newId : Nat)
    (b : ExpenseCreateBody) : ValResult :=
  let ferrs := (titleFieldErr b.title).toList ++
    (amountFieldErr b.amount).toList ++ (dateFieldErr today b.date).toList
  if ferrs.isEmpty then
    match validateLargeAmount (some b.amount) b.description with
    | some err => .invalid [err]
    | none => .ok (perform_create caller newId b)
  else .invalid ferrs

/-- The body of PATCH `/expenses/pk/`: every field optional; an absent
field is simply missing from the validated attrs. -/
structure ExpensePatchBody where
  title : Option String
  amount : Option Rat
  category : Option Category
  description : Option String
  date : Option Int
deriving DecidableEq, Repr

/-- Merging the validated patch data into the stored row on save; the
read-only `id` and `user` are untouched. -/
def applyPatch (stored : Expense) (b : ExpensePatchBody) : Expense :=
  ⟨stored.id, stored.user, b.title.getD stored.title, b.amount.getD stored.amount,
   b.category.getD stored.category,
   (match b.description with | none => stored.description | some s => some s),
   b.date.getD stored.date⟩

/-- The full validation run of a partial update: field validators run
only on the submitted fields, and the object-level `validate` receives
the submitted attrs alone, never the stored instance. -/
def run_validation_patch (today : Int) (stored : Expense)
    (b : ExpensePatchBody) : ValResult :=
  let ferrs :=
    (match b.title with | none => [] | some t => (titleFieldErr t).toList) ++
    (match b.amount with | none => [] | some v => (amountFieldErr v).toList) ++
    (match b.date with | none => [] | some v => (dateFieldErr today v).toList)
  if ferrs.isEmpty then
    match validateLargeAmount b.amount b.description with
    | some err => .invalid [err]
    | none => .ok (applyPatch stored b)
  else .invalid ferrs

lemma amountFieldErr_none {v : Rat} (hden : (v * 100).den = 1)
    (hmin : 1/100 ≤ v) (hmax : v < 100000000) : amountFieldErr v = none := by
  unfold amountFieldErr
  rw [if_neg (by simp [hden]),
    if_neg (by
      rw [abs_of_nonneg (by linarith : (0 : Rat) ≤ v)]
      exact not_le.mpr hmax),
    if_neg (by linarith), if_neg (by linarith)]

lemma dateFieldErr_none {today v : Int} (h : v ≤ today) :
    dateFieldErr today v = none := by
  unfold dateFieldErr
  rw [if_neg (by omega)]

lemma validateLargeAmount_fires {a : Rat} {d : Option String}
    (ha : a > 1000000) (hd : descrFalsy d = true) :
    validateLargeAmount (some a) d = some .onDescription := by
  have h0 : a ≠ 0 := by intro h; rw [h] at ha; norm_num at ha
  simp [validateLargeAmount, bne_iff_ne, h0, ha, hd]

lemma validateLargeAmount_silent {a : Rat} (d : Option String)
    (h : a ≤ 1000000) : validateLargeAmount (some a) d = none := by
  have hgt : ¬ (a > 1000000) := not_lt.mpr h
  simp [validateLargeAmount, hgt]

/-! ## Credential store (users/managers.py, users/models.py) -/

/-- `BaseUserManager.normalize_email`, called by
`CustomUserManager.create_user` (`users/managers.py` line 33): the
address is stripped and the domain portion after the last at-sign is
lower-cased; an address without an at-sign is returned unchanged. -/
def normalize_email (email : String) : String :=
  let parts := email.trim.splitOn "@"
  if parts.length ≤ 1 then email
  else String.intercalate "@" parts.dropLast ++ "@" ++ (parts.getLastD "").toLower

/-- The persisted user row, restricted to the fields the claims touch:
identity plus the three authorization flags.  Model defaults
(`users/models.py`): is_active true, is_staff false; is_superuser
(from the permissions mixin) false. -/
structure UserRow where
  email : String
  is_staff : Bool
  is_superuser : Bool
  is_active : Bool
deriving DecidableEq, Repr

/-- The flag entries of the `extra_fields` keyword dictionary: each is
either absent (the model default applies) or explicitly given. -/
structure ManagerExtraFields where
  is_staff : Option Bool
  is_superuser : Option Bool
  is_active : Option Bool
deriving DecidableEq, Repr

/-- `CustomUserManager.create_user` (`users/managers.py` lines 13-44):
fails when the email is empty, normalizes it, builds the row with the
extra fields or the model defaults, hashes the password and saves.  The
password handling carries no flag logic and is omitted. -/
def create_user (email : String) (extra : ManagerExtraFields) :
    Except String UserRow :=
  if email = "" then Except.error "El email es obligatorio"
  else Except.ok
    ⟨normalize_email email, extra.is_staff.getD false,
      extra.is_superuser.getD false, extra.is_active.getD true⟩

/-- `CustomUserManager.create_superuser` (`users/managers.py` lines
46-70): set is_staff, is_superuser and is_active to true when absent,
then reject unless is_staff and is_superuser are exactly true, and
delegate to `create_user`.  The code performs no check on is_active. -/
def create_superuser (email : String) (extra : ManagerExtraFields) :
    Except String UserRow :=
  let extra2 : ManagerExtraFields :=
    ⟨some (extra.is_staff.getD true), some (extra.is_superuser.getD true),
      some (extra.is_active.getD true)⟩
  if extra2.is_staff ≠ some true then
    Except.error "El superusuario debe tener is_staff=True"
  else if extra2.is_superuser ≠ some true then
    Except.error "El superusuario debe tener is_superuser=True"
  else create_user email extra2

/-! ## Profile endpoint (users/serializers.py, users/views.py) -/

/-- The authenticated user as exposed by `UserProfileView`
(`users/views.py` lines 165-188), restricted to the serializer fields
that are stored on the row. -/
structure UserProfile where
  id : Nat
  email : String
  first_name : String
  last_name : String
  date_joined : Int
  is_active : Bool
deriving DecidableEq, Repr

/-- A PUT or PATCH body for `/auth/me`: any subset of the serializer
fields may be supplied. -/
structure ProfileBody where
  email : Option String
  first_name : Option String
  last_name : Option String
  date_joined : Option Int
  is_active : Option Bool
deriving DecidableEq, Repr

/-- The update performed by `UserSerializer` (`users/serializers.py`
lines 19-22) on the profile endpoint: `read_only_fields` is exactly
id and date_joined, so email, first_name, last_name and is_active are
written from the body when supplied, while id and date_joined are never
taken from the body. -/
def userSerializerUpdate (u : UserProfile) (b : ProfileBody) : UserProfile :=
  ⟨u.id, b.email.getD u.email, b.first_name.getD u.first_name,
    b.last_name.getD u.last_name, u.date_joined, b.is_active.getD u.is_active⟩

/-! ## Token blacklist lifecycle -/

/-- Modelled from the spec: the durable revocation state of the Token
Service.  The blacklist storage and the check performed on every
refresh attempt live in the JWT library and the project settings, which
are not part of src/; the spec describes them as a durable set of
revoked token identifiers checked on every refresh attempt.  Only the
addition to the blacklist (token.blacklist() in LogoutView.post,
users/views.py lines 133-162) is in src/. -/
structure TokenServiceState where
  blacklist : List Nat
deriving DecidableEq, Repr

/-- Modelled from the spec: the operations that may touch the Token
Service after a revocation — issuing a pair for a user, a logout
revoking a token identifier, and a refresh attempt.  None of them
removes an identifier from the blacklist. -/
inductive TokenOp where
  | issue (user : Nat)
  | logout (jti : Nat)
  | refreshAttempt (jti : Nat)
deriving DecidableEq, Repr

/-- Modelled from the spec: the state transition of each operation.
`logout` adds the token identifier to the durable blacklist
(LogoutView.post); issuing and refreshing do not alter it. -/
def stepToken (s : TokenServiceState) : TokenOp → TokenServiceState
  | .issue _ => s
  | .logout jti => ⟨jti :: s.blacklist⟩
  | .refreshAttempt _ => s

/-- Modelled from the spec: running a sequence of operations. -/
def runTokenOps (s : TokenServiceState) (ops : List TokenOp) : TokenServiceState :=
  ops.foldl stepToken s

/-- Modelled from the spec: `refreshAccess` succeeds (mints a new
access token) iff the identifier of the presented refresh token is not
on the blacklist. -/
def refreshAccess (s : TokenServiceState) (jti : Nat) : Bool :=
  !(s.blacklist.contains jti)

lemma stepToken_blacklist_mono (s : TokenServiceState) (op : TokenOp)
    (jti : Nat) (h : jti ∈ s.blacklist) : jti ∈ (stepToken s op).blacklist := by
  cases op with
  | issue u => exact h
  | logout j => exact List.mem_cons_of_mem j h
  | refreshAttempt j => exact h

lemma runTokenOps_blacklist_mono (ops : List TokenOp) (s : TokenServiceState)
    (jti : Nat) (h : jti ∈ s.blacklist) :
    jti ∈ (runTokenOps s ops).blacklist := by
  induction ops generalizing s with
  | nil => exact h
  | cons op ops ih =>
      exact ih (stepToken s op) (stepToken_blacklist_mono s op jti h)

/-! ## Sample data for concrete evaluations -/

def wExpense1 : Expense := ⟨1, 1, "Mercado", 50000, .GROCERIES, none, 95⟩

def wExpense2 : Expense := ⟨2, 1, "Televisor", 80000, .ELECTRONICS, some "Pantalla", 80⟩

def wDb : List Expense := [wExpense1, wExpense2]

def wProfile : UserProfile := ⟨7, "viejo@example.com", "Ana", "Gomez", 100, true⟩

def wProfileBody : ProfileBody := ⟨some "nuevo@example.com", none, none, none, none⟩

def wStored : Expense := ⟨5, 3, "Computador", 900000, .ELECTRONICS, some "Portatil", 70⟩

/-! ## Claims -/

/-- Claim C1: for every expense e and authenticated requester r with
owner e different from r, the detail operations (GET, PUT, PATCH,
DELETE) on e answer 404, never 403, and never reveal the record; every
list or detail operation only ever operates over records owned by the
caller. -/
theorem crossOwner_detail_is_404_never_403 (db : List Expense) (r pk : Nat) :
    ((∀ e ∈ db, e.id = pk → e.user ≠ r) →
      get_object db r pk = .http404 ∧ destroyExpense db r pk = (.http404, db)) ∧
    get_object db r pk ≠ .http403 ∧
    (∀ e, get_object db r pk = .ok e → e ∈ db ∧ e.user = r) ∧
    (∀ e ∈ get_queryset db r, e.user = r) := by
  refine ⟨?_, get_object_ne_403 db r pk, get_object_ok_owner db r pk, ?_⟩
  · intro h
    have h404 := get_object_eq_404 db r pk h
    exact ⟨h404, by simp [destroyExpense, h404]⟩
  · intro e he
    have := (List.mem_filter.mp he).2
    simpa using this

theorem crossOwner_detail_witness :
    get_object wDb 2 1 = DetailOutcome.http404 ∧
      destroyExpense wDb 2 1 = (DetailOutcome.http404, wDb) :=
  (crossOwner_detail_is_404_never_403 wDb 2 1).1 (by decide)

/-- Claim C2 counterexample: the claim says the email field is
read-only on PUT and PATCH to the profile endpoint; on this concrete
request the supplied email value replaces the stored one, because
read_only_fields in users/serializers.py lists only id and
date_joined. -/
theorem profile_email_not_readonly_counterexample :
    (userSerializerUpdate wProfile wProfileBody).email ≠ wProfile.email := by
  decide

/-- Claim C2 (amended): on PUT and PATCH to the profile endpoint the
date_joined field (and the id) are read-only and unchanged regardless
of the request body, while the email field is writable: any supplied
email value becomes the stored email. -/
theorem profile_update_readonly_fields (u : UserProfile) (b : ProfileBody) :
    (userSerializerUpdate u b).date_joined = u.date_joined ∧
    (userSerializerUpdate u b).id = u.id ∧
    (∀ s, b.email = some s → (userSerializerUpdate u b).email = s) := by
  refine ⟨rfl, rfl, ?_⟩
  intro s hs
  simp [userSerializerUpdate, hs]

theorem profile_update_readonly_witness :
    (userSerializerUpdate wProfile wProfileBody).date_joined =
        wProfile.date_joined ∧
      (userSerializerUpdate wProfile wProfileBody).email = "nuevo@example.com" :=
  ⟨(profile_update_readonly_fields wProfile wProfileBody).1,
   (profile_update_readonly_fields wProfile wProfileBody).2.2
      "nuevo@example.com" rfl⟩

/-- Claim C3 counterexample: the claim says create_superuser fails
whenever any of is_staff, is_superuser, is_active is explicitly passed
as false; passing is_active as false succeeds and persists an inactive
superuser, because users/managers.py validates only is_staff and
is_superuser. -/
theorem create_superuser_inactive_counterexample :
    create_superuser "admin@example.com" ⟨none, none, some false⟩ =
      Except.ok ⟨normalize_email "admin@example.com", true, true, false⟩ := by
  rfl

lemma getD_true_of_ne_some_false {o : Option Bool} (h : o ≠ some false) :
    o.getD true = true := by
  cases o with
  | none => rfl
  | some b =>
      cases b with
      | false => exact absurd rfl h
      | true => rfl

/-- Claim C3 (amended): create_superuser behaves like create_user with
is_staff, is_superuser and is_active defaulted to true, and it fails
(creating no user) when the caller explicitly passes is_staff or
is_superuser as false; an explicit is_active equal to false is accepted
and yields an inactive superuser. -/
theorem create_superuser_flag_behavior (email : String)
    (extra : ManagerExtraFields) :
    (extra.is_staff = some false →
      create_superuser email extra =
        Except.error "El superusuario debe tener is_staff=True") ∧
    (extra.is_staff ≠ some false → extra.is_superuser = some false →
      create_superuser email extra =
        Except.error "El superusuario debe tener is_superuser=True") ∧
    (extra.is_staff ≠ some false → extra.is_superuser ≠ some false →
      email ≠ "" →
      create_superuser email extra =
        Except.ok ⟨normalize_email email, true, true, extra.is_active.getD true⟩) := by
  refine ⟨?_, ?_, ?_⟩
  · intro h
    simp [create_superuser, h]
  · intro h1 h2
    simp [create_superuser, getD_true_of_ne_some_false h1, h2]
  · intro h1 h2 h3
    simp [create_superuser, create_user, getD_true_of_ne_some_false h1,
      getD_true_of_ne_some_false h2, h3]

theorem create_superuser_flag_witness :
    create_superuser "root@example.com" ⟨none, some true, none⟩ =
      Except.ok ⟨normalize_email "root@example.com", true, true, true⟩ :=
  (create_superuser_flag_behavior "root@example.com"
      ⟨none, some true, none⟩).2.2 (by decide) (by decide) (by decide)

/-- Claim C4: with the no-future-dates invariant on the stored
expenses, period equal to week keeps exactly the expenses dated within
the last 7 days inclusive of today, month the last 30 days, 3months the
last 90 days, and an unrecognized period value applies no filtering and
is not an error. -/
theorem period_filter_characterization (today : Int) (es : List Expense)
    (e : Expense) (v : String) (hpast : ∀ x ∈ es, x.date ≤ today) :
    (e ∈ filter_by_period today es "week" ↔
      e ∈ es ∧ 0 ≤ today - e.date ∧ today - e.date ≤ 7) ∧
    (e ∈ filter_by_period today es "month" ↔
      e ∈ es ∧ 0 ≤ today - e.date ∧ today - e.date ≤ 30) ∧
    (e ∈ filter_by_period today es "3months" ↔
      e ∈ es ∧ 0 ≤ today - e.date ∧ today - e.date ≤ 90) ∧
    (v ≠ "week" → v ≠ "month" → v ≠ "3months" →
      filter_by_period today es v = es) := by
  refine ⟨?_, ?_, ?_, ?_⟩
  · exact filter_by_period_mem today es e 7 "week" rfl hpast
  · exact filter_by_period_mem today es e 30 "month" rfl hpast
  · exact filter_by_period_mem today es e 90 "3months" rfl hpast
  · intro h1 h2 h3
    simp [filter_by_period, h1, h2, h3]

theorem period_filter_witness :
    wExpense1 ∈ filter_by_period 100 wDb "week" ∧
      filter_by_period 100 wDb "bogus" = wDb :=
  ⟨((period_filter_characterization 100 wDb wExpense1 "bogus"
        (by decide)).1).mpr ⟨by simp [wDb], by decide, by decide⟩,
   (period_filter_characterization 100 wDb wExpense1 "bogus"
        (by decide)).2.2.2 (by decide) (by decide) (by decide)⟩

lemma onDescription_not_in_amountErrs (v : Rat) :
    FieldErr.onDescription ∉ (amountFieldErr v).toList := by
  unfold amountFieldErr
  split_ifs <;> simp

lemma onDescription_not_in_dateErrs (today v : Int) :
    FieldErr.onDescription ∉ (dateFieldErr today v).toList := by
  unfold dateFieldErr
  split_ifs <;> simp

lemma onDescription_not_in_titleErrs (t : String) :
    FieldErr.onDescription ∉ (titleFieldErr t).toList := by
  unfold titleFieldErr
  split_ifs <;> simp

lemma onDescription_not_in_createFieldErrs (today : Int) (b : ExpenseCreateBody) :
    FieldErr.onDescription ∉ (titleFieldErr b.title).toList ++
      (amountFieldErr b.amount).toList ++ (dateFieldErr today b.date).toList := by
  intro hmem
  simp only [List.mem_append] at hmem
  rcases hmem with (h | h) | h
  · exact onDescription_not_in_titleErrs b.title h
  · exact onDescription_not_in_amountErrs b.amount h
  · exact onDescription_not_in_dateErrs today b.date h

lemma amountFieldErr_hugeAmount :
    amountFieldErr 100000000 = some FieldErr.onAmount := by
  unfold amountFieldErr
  rw [if_neg (by push_neg; norm_num), if_pos (by norm_num)]

def wHugeBody : ExpenseCreateBody :=
  ⟨none, "Mansion", 100000000, .OTHERS, none, 90⟩

/-- Claim C5 counterexample: the claim says every creation input with
amount above 1,000,000 and empty or absent description fails with a
description-scoped error; at amount 100,000,000 (9 whole digits, beyond
the decimal field's 8) the deserializer rejects the amount field
itself, so creation fails with an amount-scoped error and the
object-level description rule never runs. -/
theorem large_amount_out_of_range_counterexample :
    wHugeBody.amount > 1000000 ∧ descrFalsy wHugeBody.description = true ∧
    run_validation_create 100 1 12 wHugeBody =
      ValResult.invalid [FieldErr.onAmount] ∧
    run_validation_create 100 1 12 wHugeBody ≠
      ValResult.invalid [FieldErr.onDescription] := by
  have hT : titleFieldErr "Mansion" = none := by decide
  have hrun : run_validation_create 100 1 12 wHugeBody =
      ValResult.invalid [FieldErr.onAmount] := by
    simp [run_validation_create, wHugeBody, amountFieldErr_hugeAmount, hT,
      dateFieldErr]
  exact ⟨by norm_num [wHugeBody], rfl, hrun, by rw [hrun]; simp⟩

/-- Claim C5 (amended): for creation inputs whose amount the decimal
field accepts (at most 2 decimal places, below 100,000,000) and whose
title and date pass their own field checks: amount above 1,000,000 with
empty or absent description fails with an error scoped to the
description field (no expense is persisted); with amount at most
1,000,000 the description is optional: its absence never contributes an
error whatever the other fields, and an otherwise valid input is
accepted. -/
theorem large_amount_description_rule (today : Int) (caller newId : Nat)
    (b : ExpenseCreateBody) :
    (b.amount > 1000000 → b.amount < 100000000 → (b.amount * 100).den = 1 →
      titleFieldErr b.title = none → b.date ≤ today →
      descrFalsy b.description = true →
      run_validation_create today caller newId b =
        .invalid [FieldErr.onDescription]) ∧
    (b.amount ≤ 1000000 →
      (∀ errs, run_validation_create today caller newId b = .invalid errs →
        FieldErr.onDescription ∉ errs) ∧
      (1/100 ≤ b.amount → (b.amount * 100).den = 1 →
        titleFieldErr b.title = none → b.date ≤ today →
        run_validation_create today caller newId b =
          .ok (perform_create caller newId b))) := by
  constructor
  · intro ha hmax hden htitle hdate hd
    have hmin : (1/100 : Rat) ≤ b.amount := by
      have : ((1 : Rat)/100) ≤ 1000000 := by norm_num
      linarith
    simp [run_validation_create, htitle, amountFieldErr_none hden hmin hmax,
      dateFieldErr_none hdate, validateLargeAmount_fires ha hd]
  · intro hle
    constructor
    · intro errs heq hmem
      simp only [run_validation_create] at heq
      rw [validateLargeAmount_silent b.description hle] at heq
      by_cases hf : ((titleFieldErr b.title).toList ++
          (amountFieldErr b.amount).toList ++
          (dateFieldErr today b.date).toList).isEmpty
      · rw [if_pos hf] at heq
        simp at heq
      · rw [if_neg hf] at heq
        have herrs : (titleFieldErr b.title).toList ++
            (amountFieldErr b.amount).toList ++
            (dateFieldErr today b.date).toList = errs := by
          injection heq
        rw [← herrs] at hmem
        exact onDescription_not_in_createFieldErrs today b hmem
    · intro hmin hden htitle hdate
      have hmax : b.amount < 100000000 := by linarith
      simp [run_validation_create, htitle, amountFieldErr_none hden hmin hmax,
        dateFieldErr_none hdate, validateLargeAmount_silent b.description hle]

def wBigBody : ExpenseCreateBody := ⟨some 99, "Casa", 2000000, .OTHERS, none, 90⟩

def wSmallBody : ExpenseCreateBody := ⟨none, "Pan", 3500, .GROCERIES, none, 95⟩

theorem large_amount_description_witness :
    run_validation_create 100 1 10 wBigBody =
        ValResult.invalid [FieldErr.onDescription] ∧
      run_validation_create 100 1 11 wSmallBody =
        ValResult.ok (perform_create 1 11 wSmallBody) :=
  ⟨(large_amount_description_rule 100 1 10 wBigBody).1
      (by norm_num [wBigBody]) (by norm_num [wBigBody])
      (by norm_num [wBigBody]) (by decide) (by decide) rfl,
   ((large_amount_description_rule 100 1 11 wSmallBody).2
      (by norm_num [wSmallBody])).2 (by norm_num [wSmallBody])
      (by norm_num [wSmallBody]) (by decide) (by decide)⟩

/-- Claim C7: the owner of a created expense is always the
authenticated caller: the owner field of the request body is declared
read-only and never reaches the validated data, and perform_create
stamps the caller. -/
theorem created_owner_is_caller (today : Int) (caller newId : Nat)
    (b : ExpenseCreateBody) :
    (perform_create caller newId b).user = caller ∧
    (∀ e, run_validation_create today caller newId b = .ok e →
      e.user = caller) := by
  refine ⟨rfl, ?_⟩
  intro e he
  simp only [run_validation_create] at he
  by_cases hf : ((titleFieldErr b.title).toList ++
      (amountFieldErr b.amount).toList ++
      (dateFieldErr today b.date).toList).isEmpty
  · rw [if_pos hf] at he
    cases hv : validateLargeAmount (some b.amount) b.description with
    | some err => rw [hv] at he; simp at he
    | none =>
        rw [hv] at he
        simp at he
        rw [← he]
        rfl
  · rw [if_neg hf] at he
    simp at he

def wOwnerBody : ExpenseCreateBody := ⟨some 42, "Libro", 12000, .OTHERS, none, 99⟩

theorem created_owner_witness :
    (perform_create 7 20 wOwnerBody).user = 7 ∧ wOwnerBody.user = some 42 :=
  ⟨(created_owner_is_caller 100 7 20 wOwnerBody).1, rfl⟩

/-- Claim C8: the statistics of an empty owner-scoped set report count
0, total 0 and average 0 (never null), and the by-category mapping
carries the label of every one of the seven categories with value 0. -/
theorem stats_empty_all_zero :
    computeStats [] =
      ⟨0, 0, 0,
        [("Comestibles", 0), ("Entretenimiento", 0), ("Electrónicos", 0),
         ("Servicios Públicos", 0), ("Ropa", 0), ("Salud", 0), ("Otros", 0)]⟩ ∧
    ∀ c : Category, (c.label, (0 : Rat)) ∈ (computeStats []).by_category := by
  constructor
  · rfl
  · intro c
    cases c <;>
      simp [computeStats, byCategory, CATEGORY_CHOICES, Category.label, sumAmounts]

/-- Claim C9: for every owner-scoped set, the by-category values sum to
the total amount, and the average equals the total divided by the count,
with average 0 when the count is 0. -/
theorem stats_sum_and_average (es : List Expense) :
    ((computeStats es).by_category.map Prod.snd).sum =
        (computeStats es).total_amount ∧
    (computeStats es).average_amount =
      (if (computeStats es).total_expenses = 0 then 0
       else (computeStats es).total_amount /
         ((computeStats es).total_expenses : Rat)) :=
  ⟨byCategory_values_sum es, rfl⟩

def wHugePatch : ExpensePatchBody := ⟨none, some 100000000, none, none, none⟩

/-- Claim C10 counterexample: the claim asserts a description-scoped
failure for every PATCH amount above 1,000,000 sent without the
description field; at amount 100,000,000 the amount field itself is
rejected (9 whole digits, beyond the decimal field's 8), the
object-level rule never runs, and the error is amount-scoped, even
though the stored description is non-empty. -/
theorem patch_out_of_range_counterexample :
    wStored.description = some "Portatil" ∧
    run_validation_patch 100 wStored wHugePatch =
      ValResult.invalid [FieldErr.onAmount] ∧
    run_validation_patch 100 wStored wHugePatch ≠
      ValResult.invalid [FieldErr.onDescription] := by
  have hrun : run_validation_patch 100 wStored wHugePatch =
      ValResult.invalid [FieldErr.onAmount] := by
    simp [run_validation_patch, wHugePatch, amountFieldErr_hugeAmount]
  exact ⟨rfl, hrun, by rw [hrun]; simp⟩

/-- Claim C10 (amended): the object-level large-amount rule reads only
the submitted attrs: a PATCH setting the amount to a value above
1,000,000 that the amount field accepts (at most 2 decimal places,
below 100,000,000) without re-sending the description fails with a
description-scoped error even when the stored row has a non-empty
description. -/
theorem patch_large_amount_ignores_stored_description (today : Int)
    (stored : Expense) (a : Rat) (s : String)
    (hdesc : stored.description = some s) (hne : s ≠ "") (ha : a > 1000000)
    (hmax : a < 100000000) (hden : (a * 100).den = 1) :
    run_validation_patch today stored ⟨none, some a, none, none, none⟩ =
      ValResult.invalid [FieldErr.onDescription] := by
  have hmin : (1/100 : Rat) ≤ a := by
    have : ((1 : Rat)/100) ≤ 1000000 := by norm_num
    linarith
  simp [run_validation_patch, amountFieldErr_none hden hmin hmax,
    validateLargeAmount_fires ha (show descrFalsy none = true from rfl)]

theorem patch_large_amount_witness :
    run_validation_patch 100 wStored ⟨none, some 2000000, none, none, none⟩ =
      ValResult.invalid [FieldErr.onDescription] :=
  patch_large_amount_ignores_stored_description 100 wStored 2000000 "Portatil"
    rfl (by decide) (by norm_num) (by norm_num) (by norm_num)

/-- Claim C6: once a refresh token identifier has been blacklisted by
logout, every later refresh attempt with it is rejected, whatever
operations happen in between: the blacklist only grows. -/
theorem revoked_token_never_refreshes (s : TokenServiceState) (jti : Nat)
    (ops : List TokenOp) :
    jti ∈ (stepToken s (TokenOp.logout jti)).blacklist ∧
    (jti ∈ s.blacklist → refreshAccess (runTokenOps s ops) jti = false) := by
  constructor
  · exact List.mem_cons_self jti s.blacklist
  · intro h
    have hmem := runTokenOps_blacklist_mono ops s jti h
    simp [refreshAccess, hmem]

theorem revoked_token_witness :
    refreshAccess
        (runTokenOps ⟨[9]⟩ [TokenOp.issue 1, TokenOp.refreshAttempt 9]) 9 =
      false :=
  (revoked_token_never_refreshes ⟨[9]⟩ 9
      [TokenOp.issue 1, TokenOp.refreshAttempt 9]).2 (by decide)
